import Mathlib

/-!
Verification of the Gesture-Control repository's core decision logic.

The Python sources (`HandTrackingModule.py`, `main.py`, `gui_main.py`) are
shallowly embedded below: pure helpers become Lean functions, the per-frame
main-loop body of `main.py` becomes a state-transition function `step` on an
explicit state record, and timestamps (`time.time()`) become rationals.
Pixel coordinates are integers (the source converts landmark coordinates with
`int(...)`).  The two driver programs (`main.py` and `gui_main.py`) share the
same per-frame gesture logic; where they differ (the hover-commit handler),
both variants are embedded.
-/

/-- One hand landmark in frame-pixel coordinates.  The source stores entries
`[id, cx, cy]` in `lmList`; the leading `id` always equals the list index and
is never read, so it is omitted here. -/
structure Landmark where
  x : ℤ
  y : ℤ
deriving DecidableEq

/-- Total list access mirroring the source's `lmList[i]`, which the source
only performs after an explicit length guard; out-of-range access never
happens on the guarded paths. -/
def nth (lm : List Landmark) (i : ℕ) : Landmark :=
  lm.getD i ⟨0, 0⟩

/-- The all-down (closed fist) finger signature `[0,0,0,0,0]`. -/
def allDown : List Bool := [false, false, false, false, false]

/-- `handDetector.fingersUp` (HandTrackingModule.py lines 53-65).
`tipIds = [4, 8, 12, 16, 20]`.  Fewer than 21 landmarks returns the all-down
signature.  Thumb: `lmList[4][1] > lmList[3][1]` (x-coordinates).  Other
fingers `i = 1..4`: `lmList[tipIds[i]][2] < lmList[tipIds[i]-2][2]`
(y-coordinates).  The source's 0/1 integers are Booleans here. -/
def fingersUp (lm : List Landmark) : List Bool :=
  if lm.length < 21 then allDown
  else [decide ((nth lm 4).x > (nth lm 3).x),
        decide ((nth lm 8).y < (nth lm 6).y),
        decide ((nth lm 12).y < (nth lm 10).y),
        decide ((nth lm 16).y < (nth lm 14).y),
        decide ((nth lm 20).y < (nth lm 18).y)]

/-- Finger-list access `fingers[i]` (the list always has length 5). -/
def fget (fingers : List Bool) (i : ℕ) : Bool :=
  fingers.getD i false

/-- `sum(fingers)` from the source, counting raised fingers. -/
def countUp (fingers : List Bool) : ℕ :=
  (fingers.filter id).length

/-- `handDetector.findDistance` (HandTrackingModule.py lines 67-82), without
the drawing side effects and the `img` pass-through.  Returns the pair
(`length`, `lineInfo`): `length = math.hypot(x2-x1, y2-y1)` and
`lineInfo = [x1, y1, x2, y2, cx, cy]` with `cx, cy = (x1+x2)//2, (y1+y2)//2`
(Python floor division, hence `Int.fdiv`).  If `len(lmList) <= max(p1, p2)`
it returns the sentinel `(0, [0, 0, 0, 0, 0, 0])`. -/
noncomputable def findDistance (p1 p2 : ℕ) (lm : List Landmark) : ℝ × List ℤ :=
  if lm.length ≤ max p1 p2 then (0, [0, 0, 0, 0, 0, 0])
  else
    let x1 := (nth lm p1).x
    let y1 := (nth lm p1).y
    let x2 := (nth lm p2).x
    let y2 := (nth lm p2).y
    (Real.sqrt (((x2 - x1) ^ 2 + (y2 - y1) ^ 2 : ℤ) : ℝ),
     [x1, y1, x2, y2, Int.fdiv (x1 + x2) 2, Int.fdiv (y1 + y2) 2])

/-- Modelled from the spec: the Euclidean pixel distance between two
landmarks ("return Euclidean pixel distance ... between them", spec 4.2),
to be compared with the `length` component computed by `findDistance`. -/
noncomputable def euclideanDist (a b : Landmark) : ℝ :=
  Real.sqrt (((b.x - a.x : ℤ) : ℝ) ^ 2 + ((b.y - a.y : ℤ) : ℝ) ^ 2)

/-- `np.interp(x, [x1, x2], [y1, y2])` for a two-point breakpoint list with
`x1 < x2`, following numpy's documented semantics: values left of `x1` return
`y1`, values right of `x2` return `y2` (clamping, no extrapolation), and
values inside are linearly interpolated. -/
def npInterp (x x1 x2 y1 y2 : ℚ) : ℚ :=
  if x ≤ x1 then y1
  else if x2 ≤ x then y2
  else y1 + (x - x1) * (y2 - y1) / (x2 - x1)

/-- The four control modes (`current_mode` strings in the source). -/
inductive Mode where
  | mouse
  | volume
  | painter
  | scroll
deriving DecidableEq

/-- `["mouse", "volume", "painter", "scroll"][i]` from `check_hover`. -/
def modeOf (i : ℤ) : Mode :=
  if i = 0 then Mode.mouse
  else if i = 1 then Mode.volume
  else if i = 2 then Mode.painter
  else Mode.scroll

/-- The hover-tracking state read and written by the `check_hover` helpers:
`hovered_icon` (with `-1` meaning "none"), `hover_start`, `current_mode`,
`selecting_mode`. -/
structure HoverState where
  hovered : ℤ
  start : ℚ
  mode : Mode
  selecting : Bool
deriving DecidableEq

/-- `mode_icon_positions` from main.py line 49 (icon size 100). -/
def mainIconPositions : List (ℤ × ℤ) := [(40, 20), (180, 20), (320, 20), (460, 20)]

/-- `self.mode_icon_positions` from gui_main.py line 126 (icon size 80). -/
def guiIconPositions : List (ℤ × ℤ) := [(40, 20), (140, 20), (240, 20), (340, 20)]

/-- Hit test `x < px < x + ICON_SIZE and y < py < y + ICON_SIZE`. -/
def insideIcon (iconSize : ℤ) (xy : ℤ × ℤ) (pos : ℤ × ℤ) : Prop :=
  xy.1 < pos.1 ∧ pos.1 < xy.1 + iconSize ∧ xy.2 < pos.2 ∧ pos.2 < xy.2 + iconSize

instance (iconSize : ℤ) (xy pos : ℤ × ℤ) : Decidable (insideIcon iconSize xy pos) := by
  unfold insideIcon; infer_instance

/-- The `for i, (x, y) in enumerate(mode_icon_positions)` loop of
`check_hover` (main.py lines 101-113), with the early `return` on the first
icon whose hit-region contains the fingertip.  On a hit: a previously tracked
same icon past `HOVER_HOLD = 1` commits the mode and leaves selecting-mode
(tracking fields untouched); a different icon switches the tracked index and
restarts the timer.  Falling off the loop sets `hovered_icon = -1`. -/
def checkHoverLoop (icons : List (ℤ × ℤ)) (idx : ℤ) (h : HoverState)
    (pos : ℤ × ℤ) (now : ℚ) : HoverState :=
  match icons with
  | [] => { h with hovered := -1 }
  | xy :: rest =>
    if insideIcon 100 xy pos then
      if h.hovered = idx then
        if now - h.start > 1 then
          { h with mode := modeOf idx, selecting := false }
        else h
      else { h with hovered := idx, start := now }
    else checkHoverLoop rest (idx + 1) h pos now

/-- `check_hover` from main.py lines 101-113. -/
def checkHover (h : HoverState) (pos : ℤ × ℤ) (now : ℚ) : HoverState :=
  checkHoverLoop mainIconPositions 0 h pos now

/-- The loop of `GestureGui._check_hover` (gui_main.py lines 491-506):
identical scan (icon size 80, different positions) except that the commit
also resets `hovered_icon` to `-1` (via `set_mode` plus the explicit
assignment on line 501). -/
def checkHoverGuiLoop (icons : List (ℤ × ℤ)) (idx : ℤ) (h : HoverState)
    (pos : ℤ × ℤ) (now : ℚ) : HoverState :=
  match icons with
  | [] => { h with hovered := -1 }
  | xy :: rest =>
    if insideIcon 80 xy pos then
      if h.hovered = idx then
        if now - h.start > 1 then
          { h with mode := modeOf idx, selecting := false, hovered := -1 }
        else h
      else { h with hovered := idx, start := now }
    else checkHoverGuiLoop rest (idx + 1) h pos now

/-- `GestureGui._check_hover` from gui_main.py lines 491-506. -/
def checkHoverGui (h : HoverState) (pos : ℤ × ℤ) (now : ℚ) : HoverState :=
  checkHoverGuiLoop guiIconPositions 0 h pos now

/-- A BGR colour triple as used by the source (`draw_color` etc.). -/
def Color : Type := ℤ × ℤ × ℤ

instance : DecidableEq Color := by
  unfold Color; infer_instance

/-- One `cv2.line(img_canvas, (xp, yp), (cx, cy), draw_color,
brush_thickness)` call.  The persistent canvas is modelled as the journal of
these draw calls (the pixel raster it produces is handled separately by the
compositor model). -/
structure Seg where
  p : ℤ × ℤ
  q : ℤ × ℤ
  color : Color
  thickness : ℤ
deriving DecidableEq

/-- The mutable module-level state of main.py's loop (lines 80-87 and the
painter globals on lines 32-36): hold-timer starts (`0` = unset), hover
tracking, mode, selecting flag, click arm, pen cursor `xp, yp` (with `(0,0)`
the lifted sentinel), painter tool, and the canvas journal. -/
structure St where
  screenshotStart : ℚ
  selectStart : ℚ
  hoverStart : ℚ
  hoveredIcon : ℤ
  mode : Mode
  selecting : Bool
  armed : Bool
  xp : ℤ
  yp : ℤ
  brushThickness : ℤ
  drawColor : Color
  drawColorName : String
  lastColor : Color
  canvas : List Seg
deriving DecidableEq

/-- The initial state of the globals (main.py lines 32-36 and 80-87). -/
def initSt : St :=
  { screenshotStart := 0, selectStart := 0, hoverStart := 0, hoveredIcon := -1
    mode := Mode.mouse, selecting := false, armed := false
    xp := 0, yp := 0, brushThickness := 10
    drawColor := (0, 0, 255), drawColorName := "red", lastColor := (0, 0, 255)
    canvas := [] }

/-- Environment fixed at startup: whether the audio endpoint initialised
(`volume is not None`), its volume range, and the display resolution. -/
structure Config where
  volAvailable : Bool
  volMin : ℚ
  volMax : ℚ
  screenW : ℚ
  screenH : ℚ
deriving DecidableEq

/-- A sample configuration (the `except` fallback range 0..100 of main.py
line 77, a 1920x1080 display). -/
def cfg0 : Config :=
  { volAvailable := true, volMin := 0, volMax := 100, screenW := 1920, screenH := 1080 }

/-- Per-frame input: the landmark list (`[]` = no hand detected, matching
the falsy `if lmList:` guard), the timestamp `cTime = time.time()` (always
positive on a real clock), and `dist48`, the value of
`length = math.hypot(...)` that `findDistance(4, 8, ...)` computes for this
frame's landmarks — carried as frame data because the source computes it in
floating point and only feeds it to `np.interp`. -/
structure Input where
  lm : List Landmark
  t : ℚ
  dist48 : ℚ
deriving DecidableEq

/-- The externally observable OS actions the loop can emit in one frame. -/
inductive Act where
  | screenshot
  | pointerMove (sx sy : ℚ)
  | leftClick
  | rightClick
  | setVolume (v : ℚ)
  | scrollBy (amt : ℤ)
deriving DecidableEq

/-- The screenshot block (main.py lines 145-154): given the current
`screenshot_start`, whether the signature is a fist, and `cTime`, return the
new `screenshot_start` and whether a screenshot fired this frame.  Note that
firing resets `screenshot_start` to the unset sentinel `0`. -/
def screenshotStep (start : ℚ) (fist : Bool) (now : ℚ) : ℚ × Bool :=
  if fist then
    if start = 0 then (now, false)
    else if now - start ≥ 2 then (0, true)
    else (start, false)
  else (0, false)

/-- The mode-select block (main.py lines 157-163): given `select_mode_start`,
whether all five fingers are up, `cTime` and the current `selecting_mode`,
return the new `select_mode_start` and `selecting_mode`. -/
def selectStep (start : ℚ) (five : Bool) (now : ℚ) (selecting : Bool) : ℚ × Bool :=
  if five then
    if start = 0 then (now, selecting)
    else if now - start > 2 then (start, true)
    else (start, selecting)
  else (0, selecting)

/-- The mouse-mode branch (main.py lines 172-191): cursor move when only the
index finger (ignoring the thumb) is up, then the click-arm logic on the
index/middle pair.  Returns the new `click_armed` and the emitted actions. -/
def mouseStep (cfg : Config) (fingers : List Bool) (ix iy : ℤ) (armed : Bool) :
    Bool × List Act :=
  let moveActs :=
    if fget fingers 1 ∧ ¬(fget fingers 2 ∨ fget fingers 3 ∨ fget fingers 4) then
      [Act.pointerMove (npInterp ix 0 640 0 cfg.screenW)
                          (npInterp iy 0 480 0 cfg.screenH)]
    else []
  if fget fingers 1 ∧ fget fingers 2 then (true, moveActs)
  else if armed then
    if ¬fget fingers 1 ∧ fget fingers 2 then (false, moveActs ++ [Act.leftClick])
    else if ¬fget fingers 1 ∧ ¬fget fingers 2 then (false, moveActs ++ [Act.rightClick])
    else (armed, moveActs)
  else (armed, moveActs)

/-- `painter_options` hit-regions in dict insertion order
(main.py lines 53-66), icon size 100. -/
def painterIcons : List (String × ℤ × ℤ) :=
  [("red", 10, 20), ("green", 115, 20), ("blue", 220, 20),
   ("thick", 325, 20), ("thin", 430, 20), ("eraser", 535, 20)]

/-- The per-icon tool update (main.py lines 217-232), including the
trailing `if draw_color_name != "eraser": draw_color = last_color`. -/
def applyTool (s : St) (name : String) : St :=
  let s1 :=
    if name = "thick" then { s with brushThickness := 20, drawColorName := "thick" }
    else if name = "thin" then { s with brushThickness := 5, drawColorName := "thin" }
    else if name = "eraser" then
      { s with drawColor := (255, 255, 255), drawColorName := "eraser" }
    else
      let c : Color :=
        if name = "red" then (0, 0, 255)
        else if name = "green" then (0, 255, 0)
        else (255, 0, 0)
      { s with drawColor := c, drawColorName := name, lastColor := c }
  if s1.drawColorName ≠ "eraser" then { s1 with drawColor := s1.lastColor } else s1

/-- The tool-selection loop (main.py lines 215-232): every icon whose
hit-region contains the fingertip applies its update (no `break` in the
source; the regions are in fact disjoint). -/
def toolSelect (s : St) (cx cy : ℤ) : St :=
  painterIcons.foldl
    (fun acc nxy =>
      if nxy.2.1 < cx ∧ cx < nxy.2.1 + 100 ∧ nxy.2.2 < cy ∧ cy < nxy.2.2 + 100 then
        applyTool acc nxy.1
      else acc)
    s

/-- The painter-mode branch (main.py lines 202-240, gesture part): tool
selection on the pointing gesture, then the stroke logic — on the drawing
gesture (index and middle up) a pen at the lifted sentinel `(0,0)` is first
moved to the fingertip, a line segment from the (possibly just-moved) pen to
the fingertip is drawn unconditionally, and the pen follows the fingertip;
otherwise the pen is lifted. -/
def painterStep (s : St) (fingers : List Bool) (lm : List Landmark) : St :=
  if 8 < lm.length then
    let cx := (nth lm 8).x
    let cy := (nth lm 8).y
    let s1 :=
      if fget fingers 1 ∧ ¬(fget fingers 2 ∨ fget fingers 3 ∨ fget fingers 4) then
        toolSelect s cx cy
      else s
    if fget fingers 1 ∧ fget fingers 2 then
      let px := if s1.xp = 0 ∧ s1.yp = 0 then cx else s1.xp
      let py := if s1.xp = 0 ∧ s1.yp = 0 then cy else s1.yp
      { s1 with
        canvas := s1.canvas ++ [⟨(px, py), (cx, cy), s1.drawColor, s1.brushThickness⟩]
        xp := cx, yp := cy }
    else { s1 with xp := 0, yp := 0 }
  else s

/-- The scroll-mode branch (main.py lines 252-258), `SCROLL_AMOUNT = 40`. -/
def scrollStep (fingers : List Bool) : List Act :=
  if fget fingers 1 ∧ fget fingers 2 ∧ ¬fget fingers 3 then [Act.scrollBy 40]
  else if fget fingers 1 ∧ fget fingers 2 ∧ fget fingers 3 then [Act.scrollBy (-40)]
  else []

/-- One iteration of the gesture part of main.py's main loop (lines
143-258).  When no hand is detected (`lmList` empty) the whole block is
skipped: the state is unchanged and nothing is emitted.  Otherwise the
screenshot and mode-select hold timers run first, then exactly one dispatch
branch (mode selection overlay / mouse / volume / painter / scroll). -/
def step (cfg : Config) (s : St) (i : Input) : St × List Act :=
  if i.lm.isEmpty then (s, [])
  else
    let fingers := fingersUp i.lm
    let shot := screenshotStep s.screenshotStart (fingers = allDown) i.t
    let sel := selectStep s.selectStart (countUp fingers = 5) i.t s.selecting
    let s1 := { s with screenshotStart := shot.1, selectStart := sel.1, selecting := sel.2 }
    let shotActs := if shot.2 then [Act.screenshot] else []
    let d :=
      if s1.selecting then
        if 8 < i.lm.length then
          let h := checkHover ⟨s1.hoveredIcon, s1.hoverStart, s1.mode, s1.selecting⟩
                     ((nth i.lm 8).x, (nth i.lm 8).y) i.t
          ({ s1 with hoveredIcon := h.hovered, hoverStart := h.start,
                     mode := h.mode, selecting := h.selecting }, ([] : List Act))
        else (s1, [])
      else if s1.mode = Mode.mouse ∧ 12 < i.lm.length then
        let m := mouseStep cfg fingers (nth i.lm 8).x (nth i.lm 8).y s1.armed
        ({ s1 with armed := m.1 }, m.2)
      else if s1.mode = Mode.volume ∧ 8 < i.lm.length ∧ cfg.volAvailable then
        (s1, [Act.setVolume (npInterp i.dist48 20 200 cfg.volMin cfg.volMax)])
      else if s1.mode = Mode.painter then
        (painterStep s1 fingers i.lm, [])
      else if s1.mode = Mode.scroll then
        (s1, scrollStep fingers)
      else (s1, [])
    (d.1, shotActs ++ d.2)

/-- Run the loop over a list of frames, collecting all emitted actions. -/
def run (cfg : Config) (s : St) : List Input → St × List Act
  | [] => (s, [])
  | i :: is =>
    let r := step cfg s i
    let rest := run cfg r.1 is
    (rest.1, r.2 ++ rest.2)

/-- Count the screenshot actions in an action list. -/
def countShot (acts : List Act) : ℕ :=
  acts.countP (fun a => decide (a = Act.screenshot))

/-- Count the left-click actions in an action list. -/
def countLeft (acts : List Act) : ℕ :=
  acts.countP (fun a => decide (a = Act.leftClick))

/-- Count the right-click actions in an action list. -/
def countRight (acts : List Act) : ℕ :=
  acts.countP (fun a => decide (a = Act.rightClick))

/-- Keep only the `setVolume` actions of a frame. -/
def setVolActs (acts : List Act) : List Act :=
  acts.filter (fun a => match a with | Act.setVolume _ => true | _ => false)

/-- A 21-landmark hand whose finger signature realises the given up/down
pattern: each finger's "up" comparison is satisfied or violated by choosing
the two compared coordinates. -/
def mkLm (t i m r p : Bool) : List Landmark :=
  [⟨0, 0⟩, ⟨0, 0⟩, ⟨0, 0⟩, ⟨0, 0⟩, ⟨if t then 1 else 0, 0⟩,
   ⟨0, 0⟩, ⟨0, 10⟩, ⟨0, 0⟩, ⟨0, if i then 0 else 10⟩,
   ⟨0, 0⟩, ⟨0, 10⟩, ⟨0, 0⟩, ⟨0, if m then 0 else 10⟩,
   ⟨0, 0⟩, ⟨0, 10⟩, ⟨0, 0⟩, ⟨0, if r then 0 else 10⟩,
   ⟨0, 0⟩, ⟨0, 10⟩, ⟨0, 0⟩, ⟨0, if p then 0 else 10⟩]

/-- A closed-fist hand: 21 landmarks all at the origin (all comparisons in
`fingersUp` are falsified, so the signature is all-down). -/
def fistLm : List Landmark := mkLm false false false false false

/-- A fist frame at time `t`. -/
def fistIn (t : ℚ) : Input := ⟨fistLm, t, 0⟩

/-- A BGR pixel of the 8-bit images (each channel 0..255). -/
def Pixel : Type := ℕ × ℕ × ℕ

instance : DecidableEq Pixel := by
  unfold Pixel; infer_instance

/-- An image as a map from (row, column) positions to pixels. -/
def Image : Type := ℕ × ℕ → Pixel

/-- Pure white, the canvas background colour. -/
def white : Pixel := (255, 255, 255)

/-- `cv2.cvtColor(..., cv2.COLOR_BGR2GRAY)` on one pixel: OpenCV's
fixed-point formula `(4899*R + 9617*G + 1868*B + 8192) >> 14` (the rounded
0.299/0.587/0.114 weights). -/
def gray (c : Pixel) : ℕ :=
  (1868 * c.1 + 9617 * c.2.1 + 4899 * c.2.2 + 8192) / 16384

/-- `cv2.threshold(mask, 250, 255, cv2.THRESH_BINARY_INV)` on one grayscale
value: `0` where the value exceeds the threshold 250 (near-white canvas
background), `255` elsewhere (drawn strokes). -/
def maskInvVal (c : Pixel) : ℕ :=
  if gray c > 250 then 0 else 255

/-- `cv2.add` on one uint8 channel (saturating addition). -/
def satAdd (a b : ℕ) : ℕ :=
  min (a + b) 255

/-- One pixel of `overlay_canvas` (main.py lines 116-123, identical to
`overlay_canvas_on_frame` in gui_main.py lines 45-52): with
`m = maskInvVal c` broadcast to all three channels by `GRAY2BGR`,
`img = cv2.bitwise_and(img, 255 - m)` then
`img = cv2.add(img, cv2.bitwise_and(canvas, m))`. -/
def compositePixel (f c : Pixel) : Pixel :=
  let m := maskInvVal c
  (satAdd (Nat.land f.1 (255 - m)) (Nat.land c.1 m),
   satAdd (Nat.land f.2.1 (255 - m)) (Nat.land c.2.1 m),
   satAdd (Nat.land f.2.2 (255 - m)) (Nat.land c.2.2 m))

/-- `overlay_canvas(img, canvas)`: the per-pixel composite applied at every
position. -/
def overlayCanvas (img canvas : Image) : Image :=
  fun pos => compositePixel (img pos) (canvas pos)

/-- All three channels of a pixel are valid uint8 values. -/
def pixelLe255 (p : Pixel) : Prop :=
  p.1 ≤ 255 ∧ p.2.1 ≤ 255 ∧ p.2.2 ≤ 255

instance (p : Pixel) : Decidable (pixelLe255 p) := by
  unfold pixelLe255; infer_instance

/-- A 9-landmark observation (indices 0-8) with landmark 4 at the origin and
landmark 8 at (3, 4): enough entries for `findDistance(4, 8, ...)`. -/
def lm9 : List Landmark :=
  [⟨0, 0⟩, ⟨0, 0⟩, ⟨0, 0⟩, ⟨0, 0⟩, ⟨0, 0⟩, ⟨0, 0⟩, ⟨0, 0⟩, ⟨0, 0⟩, ⟨3, 4⟩]

/-- A 21-landmark hand with the index fingertip (landmark 8) at `(cx, cy)`
and exactly the index and middle fingers up (the drawing gesture). -/
def drawLm (cx cy : ℤ) : List Landmark :=
  [⟨0, 0⟩, ⟨0, 0⟩, ⟨0, 0⟩, ⟨0, 0⟩, ⟨0, 0⟩, ⟨0, 0⟩, ⟨0, cy + 1⟩, ⟨0, 0⟩,
   ⟨cx, cy⟩, ⟨0, 0⟩, ⟨0, 1⟩, ⟨0, 0⟩, ⟨0, 0⟩, ⟨0, 0⟩, ⟨0, 0⟩, ⟨0, 0⟩,
   ⟨0, 0⟩, ⟨0, 0⟩, ⟨0, 0⟩, ⟨0, 0⟩, ⟨0, 0⟩]

/-- Frame: index and middle up (the click-arming gesture) at t = 1. -/
def armIn : Input := ⟨mkLm false true true false false, 1, 0⟩

/-- Frame: no hand detected at t = 2. -/
def noHandIn : Input := ⟨[], 2, 0⟩

/-- Frame: only the middle finger up (the left-click drop) at t = 3. -/
def dropIn : Input := ⟨mkLm false false true false false, 3, 0⟩

/-!
## Theorems

One theorem per claim (C1-C10), each preceded by auxiliary lemmas where
needed, plus a closed witness for every claim theorem with hypotheses and a
closed counterexample for every corrected claim.
-/

/-- C3: for every landmark list with fewer than 21 entries the finger-state
classifier returns the all-false signature of length 5; for a list with 21
entries the thumb is up iff the x-coordinate of landmark 4 exceeds that of
landmark 3, and each other finger is up iff its tip landmark's y-coordinate
is strictly less than the y-coordinate of the landmark two indices below the
tip (tips 8, 12, 16, 20 against 6, 10, 14, 18). -/
theorem fingersUp_classifier (lm : List Landmark) :
    (lm.length < 21 → fingersUp lm = allDown) ∧
    (lm.length = 21 →
      ((fget (fingersUp lm) 0 = true ↔ (nth lm 3).x < (nth lm 4).x) ∧
       (fget (fingersUp lm) 1 = true ↔ (nth lm 8).y < (nth lm 6).y) ∧
       (fget (fingersUp lm) 2 = true ↔ (nth lm 12).y < (nth lm 10).y) ∧
       (fget (fingersUp lm) 3 = true ↔ (nth lm 16).y < (nth lm 14).y) ∧
       (fget (fingersUp lm) 4 = true ↔ (nth lm 20).y < (nth lm 18).y))) := by
  constructor
  · intro h
    simp [fingersUp, h]
  · intro h
    have h21 : ¬(lm.length < 21) := by omega
    simp [fingersUp, h21, fget, gt_iff_lt]

/-- Witness for C3 at a concrete short list and a concrete 21-landmark
hand. -/
theorem fingersUp_classifier_witness :
    fingersUp [] = allDown ∧
    (fget (fingersUp (mkLm true false true false false)) 0 = true ↔
      (nth (mkLm true false true false false) 3).x < (nth (mkLm true false true false false) 4).x) :=
  ⟨(fingersUp_classifier []).1 (by decide),
   ((fingersUp_classifier (mkLm true false true false false)).2 (by decide)).1⟩

/-- C9: if the landmark list's length is at most `max p1 p2`, the distance
operation returns the zero-distance sentinel (distance 0 and the all-zero
coordinate vector) regardless of the list's contents; otherwise it returns
the Euclidean pixel distance between the two landmarks together with their
coordinates and their (floor-division) midpoint. -/
theorem findDistance_contract (p1 p2 : ℕ) (lm : List Landmark) :
    (lm.length ≤ max p1 p2 → findDistance p1 p2 lm = (0, [0, 0, 0, 0, 0, 0])) ∧
    (max p1 p2 < lm.length →
      findDistance p1 p2 lm =
        (euclideanDist (nth lm p1) (nth lm p2),
         [(nth lm p1).x, (nth lm p1).y, (nth lm p2).x, (nth lm p2).y,
          Int.fdiv ((nth lm p1).x + (nth lm p2).x) 2,
          Int.fdiv ((nth lm p1).y + (nth lm p2).y) 2])) := by
  constructor
  · intro h
    simp [findDistance, h]
  · intro h
    have h' : ¬(lm.length ≤ max p1 p2) := by omega
    simp only [findDistance, h', if_false, euclideanDist]
    norm_num

/-- Witness for C9 at an empty list and at `lm9` (landmarks (0,0) and
(3,4), distance 5, midpoint (1,2)). -/
theorem findDistance_contract_witness :
    findDistance 4 8 [] = (0, [0, 0, 0, 0, 0, 0]) ∧
    findDistance 4 8 lm9 = (5, [0, 0, 3, 4, 1, 2]) := by
  refine ⟨(findDistance_contract 4 8 []).1 (by decide), ?_⟩
  have h := (findDistance_contract 4 8 lm9).2 (by decide)
  rw [h]
  have h5 : euclideanDist (nth lm9 4) (nth lm9 8) = 5 := by
    have hn4 : nth lm9 4 = ⟨0, 0⟩ := by decide
    have hn8 : nth lm9 8 = ⟨3, 4⟩ := by decide
    rw [hn4, hn8, euclideanDist]
    rw [show ((((3 : ℤ) - 0 : ℤ) : ℝ) ^ 2 + (((4 : ℤ) - 0 : ℤ) : ℝ) ^ 2) = 5 ^ 2 by norm_num]
    exact Real.sqrt_sq (by norm_num)
  rw [h5]
  norm_num [nth, lm9]
  decide

set_option maxRecDepth 4000 in
/-- Bitwise and with the full uint8 mask is the identity on uint8 values
(checked on all 256 byte values). -/
theorem land255_fin : ∀ x : Fin 256, Nat.land x.val 255 = x.val := by decide

/-- Bitwise and with `255` leaves any value at most 255 unchanged. -/
theorem land255_eq (x : ℕ) (hx : x ≤ 255) : Nat.land x 255 = x :=
  land255_fin ⟨x, by omega⟩

/-- Bitwise and with the zero mask gives zero. -/
theorem land_zero_eq (x : ℕ) : Nat.land x 0 = 0 := by
  simp [Nat.land]

/-- C8: every pure-white canvas pixel is classified as background by the
grayscale > 250 threshold, so compositing an all-white canvas with any frame
whose channels are valid uint8 values returns the frame unchanged at every
position. -/
theorem overlay_white_identity (img canvas : Image)
    (hc : ∀ pos, canvas pos = white) (hb : ∀ pos, pixelLe255 (img pos)) :
    (250 < gray white ∧ maskInvVal white = 0) ∧
    ∀ pos, overlayCanvas img canvas pos = img pos := by
  refine ⟨⟨by decide, by decide⟩, ?_⟩
  intro pos
  obtain ⟨h1, h2, h3⟩ := hb pos
  show compositePixel (img pos) (canvas pos) = img pos
  rw [hc pos]
  have hm : maskInvVal (255, 255, 255) = 0 := by decide
  simp only [compositePixel, white, hm, Nat.sub_zero, land_zero_eq,
    land255_eq _ h1, land255_eq _ h2, land255_eq _ h3, satAdd, Nat.add_zero]
  rw [Nat.min_eq_left h1, Nat.min_eq_left h2, Nat.min_eq_left h3]
  rfl

/-- Witness for C8: a constant non-white frame composited with the all-white
canvas at a concrete position. -/
theorem overlay_white_identity_witness :
    overlayCanvas (fun _ => (7, 130, 201)) (fun _ => white) (0, 0) = (7, 130, 201) :=
  (overlay_white_identity (fun _ => (7, 130, 201)) (fun _ => white)
    (fun _ => rfl) (fun _ => show pixelLe255 (7, 130, 201) by decide)).2 (0, 0)

/-- C2 (amended): on every frame where no hand is observed the loop body is
skipped entirely — the state (in particular both finger-signature hold-timer
start values) is left exactly as it was, and no action is emitted.  The hold
timers are NOT reset to unset on such frames. -/
theorem no_hand_frame_unchanged (cfg : Config) (s : St) (i : Input) (h : i.lm = []) :
    step cfg s i = (s, []) := by
  simp [step, h]

/-- Witness for C2 at a concrete state with both timers running. -/
theorem no_hand_frame_unchanged_witness :
    step cfg0 { initSt with screenshotStart := 5, selectStart := 4 } noHandIn =
      ({ initSt with screenshotStart := 5, selectStart := 4 }, []) :=
  no_hand_frame_unchanged cfg0 _ _ rfl

/-- Counterexample to C2 as stated: on a no-hand frame the screenshot and
mode-select timers keep their set (non-zero) start values instead of being
reset to the unset sentinel `0`. -/
theorem no_hand_reset_cex :
    (step cfg0 { initSt with screenshotStart := 5, selectStart := 4 } noHandIn).1.screenshotStart = 5 ∧
    (step cfg0 { initSt with screenshotStart := 5, selectStart := 4 } noHandIn).1.selectStart = 4 ∧
    (5 : ℚ) ≠ 0 ∧ (4 : ℚ) ≠ 0 := by
  refine ⟨rfl, rfl, by norm_num, by norm_num⟩

/-- C7: whenever the dispatch reaches the Volume branch (not selecting a
mode, current mode Volume, the thumb/index landmarks resolvable, a volume
device available), the frame emits exactly one volume action whose level is
`np.interp` of the measured thumb-index distance from [20, 200] onto
[vol_min, vol_max]; that mapping clamps at both endpoints (≤ 20 gives
vol_min, ≥ 200 gives vol_max) and is the linear interpolation inside. -/
theorem volume_interp_clamp (cfg : Config) (s : St) (i : Input)
    (hsel : (selectStep s.selectStart (decide (countUp (fingersUp i.lm) = 5)) i.t s.selecting).2 = false)
    (hmode : s.mode = Mode.volume) (hlen : 8 < i.lm.length) (hvol : cfg.volAvailable = true) :
    setVolActs (step cfg s i).2 =
      [Act.setVolume (npInterp i.dist48 20 200 cfg.volMin cfg.volMax)] ∧
    (i.dist48 ≤ 20 → npInterp i.dist48 20 200 cfg.volMin cfg.volMax = cfg.volMin) ∧
    (200 ≤ i.dist48 → npInterp i.dist48 20 200 cfg.volMin cfg.volMax = cfg.volMax) ∧
    (20 ≤ i.dist48 → i.dist48 ≤ 200 →
      npInterp i.dist48 20 200 cfg.volMin cfg.volMax =
        cfg.volMin + (i.dist48 - 20) * (cfg.volMax - cfg.volMin) / 180) := by
  have hne : i.lm.isEmpty = false := by
    cases h : i.lm with
    | nil => rw [h] at hlen; simp at hlen
    | cons a l => simp
  refine ⟨?_, ?_, ?_, ?_⟩
  · simp only [step, hne, Bool.false_eq_true, if_false, hsel, hmode]
    have h1 : ¬(Mode.volume = Mode.mouse ∧ 12 < i.lm.length) := by simp
    simp only [h1, if_false, hlen, hvol, and_true, true_and, if_true]
    cases hs : (screenshotStep s.screenshotStart (decide (fingersUp i.lm = allDown)) i.t).2 <;>
      simp [hs, setVolActs]
  · intro h
    simp [npInterp, h]
  · intro h
    have h20 : ¬(i.dist48 ≤ 20) := by linarith
    simp [npInterp, h20, h]
  · intro h1 h2
    rcases lt_or_eq_of_le h1 with h1' | h1'
    · rcases lt_or_eq_of_le h2 with h2' | h2'
      · have ha : ¬(i.dist48 ≤ 20) := by linarith
        have hb : ¬((200 : ℚ) ≤ i.dist48) := by linarith
        simp [npInterp, ha, hb]
        ring_nf
      · have ha : ¬(i.dist48 ≤ 20) := by linarith
        rw [npInterp, if_neg ha, if_pos (le_of_eq h2'.symm), h2']
        field_simp
        ring
    · rw [npInterp, if_pos (le_of_eq h1'.symm), ← h1']
      norm_num

/-- Witness for C7: volume mode, fist hand at distance 300 px, fallback
volume range [0, 100]: one `setVolume` action whose clamped value is 100. -/
theorem volume_interp_clamp_witness :
    setVolActs (step cfg0 { initSt with mode := Mode.volume } ⟨fistLm, 1, 300⟩).2 =
      [Act.setVolume (npInterp 300 20 200 0 100)] ∧
    npInterp 300 20 200 0 100 = 100 := by
  have h := volume_interp_clamp cfg0 { initSt with mode := Mode.volume } ⟨fistLm, 1, 300⟩
    (by decide) rfl (by decide) rfl
  exact ⟨h.1, h.2.2.1 (by norm_num)⟩

/-- Projection of a frame that reaches the Mouse dispatch branch onto the
`click_armed` update and the click actions of `mouseStep` (the screenshot
block can at most contribute a non-click action). -/
theorem step_mouse_proj (cfg : Config) (s : St) (i : Input)
    (hne : i.lm.isEmpty = false)
    (hsel : (selectStep s.selectStart (decide (countUp (fingersUp i.lm) = 5)) i.t s.selecting).2 = false)
    (hmode : s.mode = Mode.mouse) (hlen : 12 < i.lm.length) :
    (step cfg s i).1.armed =
      (mouseStep cfg (fingersUp i.lm) (nth i.lm 8).x (nth i.lm 8).y s.armed).1 ∧
    countLeft (step cfg s i).2 =
      countLeft (mouseStep cfg (fingersUp i.lm) (nth i.lm 8).x (nth i.lm 8).y s.armed).2 ∧
    countRight (step cfg s i).2 =
      countRight (mouseStep cfg (fingersUp i.lm) (nth i.lm 8).x (nth i.lm 8).y s.armed).2 := by
  simp only [step, hne, Bool.false_eq_true, if_false, hsel, hmode, hlen, and_true, if_true]
  cases hs : (screenshotStep s.screenshotStart (decide (fingersUp i.lm = allDown)) i.t).2 <;>
    simp [hs, countLeft, countRight]

/-- C4: in Mouse mode (hand with more than 12 landmarks, mode selection not
active): index+middle both up arms the click state and emits no click; while
armed, index down with middle up emits exactly one left click and disarms;
while armed, both down emits exactly one right click and disarms; while
armed, index up with middle down leaves the arm state set and emits no
click. -/
theorem mouse_click_arm (cfg : Config) (s : St) (i : Input)
    (hsel : (selectStep s.selectStart (decide (countUp (fingersUp i.lm) = 5)) i.t s.selecting).2 = false)
    (hmode : s.mode = Mode.mouse) (hlen : 12 < i.lm.length) :
    ((fget (fingersUp i.lm) 1 = true ∧ fget (fingersUp i.lm) 2 = true) →
      (step cfg s i).1.armed = true ∧
      countLeft (step cfg s i).2 = 0 ∧ countRight (step cfg s i).2 = 0) ∧
    ((s.armed = true ∧ fget (fingersUp i.lm) 1 = false ∧ fget (fingersUp i.lm) 2 = true) →
      (step cfg s i).1.armed = false ∧
      countLeft (step cfg s i).2 = 1 ∧ countRight (step cfg s i).2 = 0) ∧
    ((s.armed = true ∧ fget (fingersUp i.lm) 1 = false ∧ fget (fingersUp i.lm) 2 = false) →
      (step cfg s i).1.armed = false ∧
      countLeft (step cfg s i).2 = 0 ∧ countRight (step cfg s i).2 = 1) ∧
    ((s.armed = true ∧ fget (fingersUp i.lm) 1 = true ∧ fget (fingersUp i.lm) 2 = false) →
      (step cfg s i).1.armed = true ∧
      countLeft (step cfg s i).2 = 0 ∧ countRight (step cfg s i).2 = 0) := by
  have hne : i.lm.isEmpty = false := by
    cases h : i.lm with
    | nil => rw [h] at hlen; simp at hlen
    | cons a l => simp
  obtain ⟨ha, hl, hr⟩ := step_mouse_proj cfg s i hne hsel hmode hlen
  refine ⟨?_, ?_, ?_, ?_⟩
  · rintro ⟨h1, h2⟩
    rw [ha, hl, hr]
    simp [mouseStep, h1, h2, countLeft, countRight]
  · rintro ⟨harm, h1, h2⟩
    rw [ha, hl, hr]
    simp [mouseStep, harm, h1, h2, countLeft, countRight]
  · rintro ⟨harm, h1, h2⟩
    rw [ha, hl, hr]
    simp [mouseStep, harm, h1, h2, countLeft, countRight]
  · rintro ⟨harm, h1, h2⟩
    rw [ha, hl, hr]
    by_cases hm : fget (fingersUp i.lm) 3 = true ∨ fget (fingersUp i.lm) 4 = true
    · simp [mouseStep, harm, h1, h2, hm, countLeft, countRight]
    · simp [mouseStep, harm, h1, h2, hm, countLeft, countRight]

/-- Witness for C4: arming frame (index+middle up) from the initial state in
Mouse mode — armed afterwards, no click emitted. -/
theorem mouse_click_arm_witness :
    (step cfg0 initSt armIn).1.armed = true ∧
    countLeft (step cfg0 initSt armIn).2 = 0 ∧ countRight (step cfg0 initSt armIn).2 = 0 :=
  (mouse_click_arm cfg0 initSt armIn (by decide) rfl (by decide)).1 (by decide)

/-- `applyTool` only touches the painter-tool fields. -/
theorem applyTool_armed (s : St) (n : String) : (applyTool s n).armed = s.armed := by
  simp only [applyTool]
  split_ifs <;> rfl

/-- The tool-selection loop never touches `click_armed`. -/
theorem toolSelect_armed (s : St) (cx cy : ℤ) : (toolSelect s cx cy).armed = s.armed := by
  simp only [toolSelect, painterIcons, List.foldl]
  split_ifs <;> simp only [applyTool_armed]

/-- The painter branch never touches `click_armed`. -/
theorem painterStep_armed (s : St) (f : List Bool) (lm : List Landmark) :
    (painterStep s f lm).armed = s.armed := by
  simp only [painterStep]
  split_ifs <;> simp [toolSelect_armed]

/-- C10: `click_armed` is mutated only inside the Mouse-mode dispatch
branch — on any frame with no hand, with mode selection active at dispatch
time, with a non-Mouse mode, or with at most 12 landmarks, the armed flag is
unchanged; consequently an armed state survives hand loss, and a qualifying
finger-drop on the first Mouse frame after the hand returns fires a click
armed in an earlier episode (concrete three-frame trace: arm, lose the hand,
drop the index — one left click). -/
theorem click_armed_locality :
    (∀ (cfg : Config) (s : St) (i : Input),
        (i.lm = [] ∨
         (selectStep s.selectStart (decide (countUp (fingersUp i.lm) = 5)) i.t s.selecting).2 = true ∨
         s.mode ≠ Mode.mouse ∨ i.lm.length ≤ 12) →
        (step cfg s i).1.armed = s.armed) ∧
    (run cfg0 initSt [armIn, noHandIn]).1.armed = true ∧
    (run cfg0 initSt [armIn, noHandIn, dropIn]).1.armed = false ∧
    countLeft (run cfg0 initSt [armIn, noHandIn, dropIn]).2 = 1 := by
  refine ⟨?_, ?_, ?_, ?_⟩
  · intro cfg s i h
    by_cases hne : i.lm.isEmpty = true
    · simp [step, hne]
    · have hnil : ¬(i.lm = []) := by
        intro hl; rw [hl] at hne; simp at hne
      simp only [Bool.not_eq_true] at hne
      rcases h with h | h | h | h
      · exact absurd h hnil
      · simp only [step, hne, Bool.false_eq_true, if_false, h, if_true]
        by_cases h8 : 8 < i.lm.length <;> simp [h8]
      · simp only [step, hne, Bool.false_eq_true, if_false]
        cases hsel2 : (selectStep s.selectStart (decide (countUp (fingersUp i.lm) = 5)) i.t s.selecting).2
        · have hmg : ¬(s.mode = Mode.mouse ∧ 12 < i.lm.length) := fun hc => h hc.1
          simp only [hsel2, Bool.false_eq_true, if_false, hmg]
          split_ifs <;> simp [painterStep_armed]
        · simp only [hsel2, if_true]
          by_cases h8 : 8 < i.lm.length <;> simp [h8]
      · simp only [step, hne, Bool.false_eq_true, if_false]
        cases hsel2 : (selectStep s.selectStart (decide (countUp (fingersUp i.lm) = 5)) i.t s.selecting).2
        · have hmg : ¬(s.mode = Mode.mouse ∧ 12 < i.lm.length) := fun hc => by omega
          simp only [hsel2, Bool.false_eq_true, if_false, hmg]
          split_ifs <;> simp [painterStep_armed]
        · simp only [hsel2, if_true]
          by_cases h8 : 8 < i.lm.length <;> simp [h8]
  · norm_num [run, step, screenshotStep, selectStep, mouseStep, scrollStep, painterStep,
      fingersUp, armIn, noHandIn, dropIn, mkLm, nth, countUp, allDown, fget, initSt, cfg0]
  · norm_num [run, step, screenshotStep, selectStep, mouseStep, scrollStep, painterStep,
      fingersUp, armIn, noHandIn, dropIn, mkLm, nth, countUp, allDown, fget, initSt, cfg0,
      countLeft]
  · norm_num [run, step, screenshotStep, selectStep, mouseStep, scrollStep, painterStep,
      fingersUp, armIn, noHandIn, dropIn, mkLm, nth, countUp, allDown, fget, initSt, cfg0,
      countLeft]

/-- Witness for C10: an armed state in Volume mode with the hand lost is
untouched by the frame. -/
theorem click_armed_locality_witness :
    (step cfg0 { initSt with armed := true, mode := Mode.volume } noHandIn).1.armed = true :=
  click_armed_locality.1 cfg0 { initSt with armed := true, mode := Mode.volume } noHandIn
    (Or.inl rfl)

/-- `applyTool` never touches the canvas or the pen cursor. -/
theorem applyTool_keeps (s : St) (n : String) :
    (applyTool s n).canvas = s.canvas ∧ (applyTool s n).xp = s.xp ∧ (applyTool s n).yp = s.yp := by
  simp only [applyTool]
  split_ifs <;> exact ⟨rfl, rfl, rfl⟩

/-- The tool-selection loop never touches the canvas or the pen cursor. -/
theorem toolSelect_keeps (s : St) (cx cy : ℤ) :
    (toolSelect s cx cy).canvas = s.canvas ∧ (toolSelect s cx cy).xp = s.xp ∧
    (toolSelect s cx cy).yp = s.yp := by
  simp only [toolSelect, painterIcons, List.foldl]
  split_ifs <;> simp only [(applyTool_keeps _ _).1, (applyTool_keeps _ _).2.1,
    (applyTool_keeps _ _).2.2, and_self]

/-- Projection of a frame that reaches the Painter dispatch branch onto
`painterStep` applied to the state after the timer updates (which leave all
painter fields untouched). -/
theorem step_painter_proj (cfg : Config) (s : St) (i : Input)
    (hne : i.lm.isEmpty = false)
    (hsel : (selectStep s.selectStart (decide (countUp (fingersUp i.lm) = 5)) i.t s.selecting).2 = false)
    (hmode : s.mode = Mode.painter) :
    (step cfg s i).1.canvas =
      (painterStep { s with
          screenshotStart := (screenshotStep s.screenshotStart (decide (fingersUp i.lm = allDown)) i.t).1,
          selectStart := (selectStep s.selectStart (decide (countUp (fingersUp i.lm) = 5)) i.t s.selecting).1,
          selecting := false } (fingersUp i.lm) i.lm).canvas ∧
    (step cfg s i).1.xp =
      (painterStep { s with
          screenshotStart := (screenshotStep s.screenshotStart (decide (fingersUp i.lm = allDown)) i.t).1,
          selectStart := (selectStep s.selectStart (decide (countUp (fingersUp i.lm) = 5)) i.t s.selecting).1,
          selecting := false } (fingersUp i.lm) i.lm).xp ∧
    (step cfg s i).1.yp =
      (painterStep { s with
          screenshotStart := (screenshotStep s.screenshotStart (decide (fingersUp i.lm = allDown)) i.t).1,
          selectStart := (selectStep s.selectStart (decide (countUp (fingersUp i.lm) = 5)) i.t s.selecting).1,
          selecting := false } (fingersUp i.lm) i.lm).yp := by
  simp only [step, hne, Bool.false_eq_true, if_false, hsel, hmode]
  have h1 : ¬(Mode.painter = Mode.mouse ∧ 12 < i.lm.length) := by simp
  have h2 : ¬(Mode.painter = Mode.volume ∧ 8 < i.lm.length ∧ cfg.volAvailable = true) := by simp
  simp [h1, h2]

/-- C6 (amended): in Painter mode with the drawing gesture held, a lifted
pen (the `(0, 0)` sentinel) is first moved to the fingertip and the frame
draws a degenerate zero-length segment from the fingertip to itself (a dot
of the current tool, not nothing); on a consecutive drawing frame exactly
one segment from the previous pen position to the new fingertip is drawn
with the current colour and thickness and the pen follows; on a frame
where the drawing gesture is not held the pen is lifted and nothing is
drawn. -/
theorem painter_stroke_behavior (cfg : Config) (s : St) (i : Input)
    (hsel : (selectStep s.selectStart (decide (countUp (fingersUp i.lm) = 5)) i.t s.selecting).2 = false)
    (hmode : s.mode = Mode.painter) (hlen : 8 < i.lm.length) :
    ((fget (fingersUp i.lm) 1 = true ∧ fget (fingersUp i.lm) 2 = true) →
      ((s.xp = 0 ∧ s.yp = 0) →
        (step cfg s i).1.canvas =
          s.canvas ++ [⟨((nth i.lm 8).x, (nth i.lm 8).y), ((nth i.lm 8).x, (nth i.lm 8).y),
            s.drawColor, s.brushThickness⟩] ∧
        (step cfg s i).1.xp = (nth i.lm 8).x ∧ (step cfg s i).1.yp = (nth i.lm 8).y) ∧
      (¬(s.xp = 0 ∧ s.yp = 0) →
        (step cfg s i).1.canvas =
          s.canvas ++ [⟨(s.xp, s.yp), ((nth i.lm 8).x, (nth i.lm 8).y),
            s.drawColor, s.brushThickness⟩] ∧
        (step cfg s i).1.xp = (nth i.lm 8).x ∧ (step cfg s i).1.yp = (nth i.lm 8).y)) ∧
    (¬(fget (fingersUp i.lm) 1 = true ∧ fget (fingersUp i.lm) 2 = true) →
      (step cfg s i).1.xp = 0 ∧ (step cfg s i).1.yp = 0 ∧
      (step cfg s i).1.canvas = s.canvas) := by
  have hne : i.lm.isEmpty = false := by
    cases hl : i.lm with
    | nil => rw [hl] at hlen; simp at hlen
    | cons a l => simp
  obtain ⟨hc, hx, hy⟩ := step_painter_proj cfg s i hne hsel hmode
  constructor
  · rintro ⟨h1, h2⟩
    constructor
    · intro hlift
      rw [hc, hx, hy]
      simp [painterStep, hlen, h1, h2, hlift.1, hlift.2]
    · intro hlift
      rw [hc, hx, hy]
      simp [painterStep, hlen, h1, h2, hlift]
  · intro hng
    rw [hc, hx, hy]
    by_cases ht : fget (fingersUp i.lm) 1 = true ∧
        ¬(fget (fingersUp i.lm) 2 = true ∨ fget (fingersUp i.lm) 3 = true ∨ fget (fingersUp i.lm) 4 = true)
    · obtain ⟨ht1, ht2⟩ := ht
      have hf2 : fget (fingersUp i.lm) 2 = false := by
        cases hq : fget (fingersUp i.lm) 2 with
        | false => rfl
        | true => exact absurd (Or.inl hq) ht2
      simp [painterStep, hlen, ht1, ht2, hf2, (toolSelect_keeps _ _ _).1]
      split_ifs <;> simp [(toolSelect_keeps _ _ _).1]
    · simp [painterStep, hlen, ht, hng]
      split_ifs <;> simp [(toolSelect_keeps _ _ _).1]

/-- Witness for C6: second consecutive drawing frame from pen position
(100, 100) to fingertip (110, 105) draws exactly that segment with the
current red colour and thickness 10. -/
theorem painter_stroke_behavior_witness :
    (step cfg0 { initSt with mode := Mode.painter, xp := 100, yp := 100 }
        ⟨drawLm 110 105, 2, 0⟩).1.canvas =
      [⟨(100, 100), (110, 105), (0, 0, 255), 10⟩] ∧
    (step cfg0 { initSt with mode := Mode.painter, xp := 100, yp := 100 }
        ⟨drawLm 110 105, 2, 0⟩).1.xp = 110 ∧
    (step cfg0 { initSt with mode := Mode.painter, xp := 100, yp := 100 }
        ⟨drawLm 110 105, 2, 0⟩).1.yp = 105 :=
  ((painter_stroke_behavior cfg0 { initSt with mode := Mode.painter, xp := 100, yp := 100 }
      ⟨drawLm 110 105, 2, 0⟩ (by decide) rfl (by decide)).1 (by decide)).2 (by decide)

/-- Counterexample to C6 as stated: the very first drawing frame after a pen
lift already mutates the canvas — it draws the degenerate segment
(100,100)-(100,100) rather than drawing nothing. -/
theorem painter_first_frame_cex :
    (step cfg0 { initSt with mode := Mode.painter } ⟨drawLm 100 100, 1, 0⟩).1.canvas =
      [⟨(100, 100), (100, 100), (0, 0, 255), 10⟩] ∧
    [(⟨(100, 100), (100, 100), (0, 0, 255), 10⟩ : Seg)] ≠
      ({ initSt with mode := Mode.painter } : St).canvas := by
  constructor
  · norm_num [step, screenshotStep, selectStep, painterStep, toolSelect, applyTool, painterIcons,
      fingersUp, drawLm, nth, countUp, allDown, fget, initSt, cfg0]
    decide
  · simp [initSt]

set_option maxHeartbeats 2000000 in
/-- C5 (amended): for a fingertip inside icon i's hit-region — if icon i is
already tracked and the dwell exceeds HOVER_HOLD (1 s), the mode commits to
icon i's mode and mode-selection ends (in the CLI driver the tracked
hovered-icon index and its timer are left unchanged by the commit; in the
GUI driver the hovered-icon index is reset to none while the timer value
persists); if the dwell has not yet exceeded the threshold nothing changes;
if a different icon than the tracked one is hovered, the tracked index
switches and the timer restarts immediately.  A fingertip outside all icon
regions resets the hovered icon to none without committing. -/
theorem hover_commit_behavior (h : HoverState) (pos : ℤ × ℤ) (now : ℚ) (i : ℕ) (hi : i < 4) :
    (insideIcon 100 (mainIconPositions.getD i (0, 0)) pos →
      ((h.hovered = (i : ℤ) → now - h.start > 1 →
          checkHover h pos now = { h with mode := modeOf (i : ℤ), selecting := false }) ∧
       (h.hovered = (i : ℤ) → ¬(now - h.start > 1) → checkHover h pos now = h) ∧
       (h.hovered ≠ (i : ℤ) →
          checkHover h pos now = { h with hovered := (i : ℤ), start := now }))) ∧
    ((∀ j : ℕ, j < 4 → ¬insideIcon 100 (mainIconPositions.getD j (0, 0)) pos) →
      checkHover h pos now = { h with hovered := -1 }) ∧
    (insideIcon 80 (guiIconPositions.getD i (0, 0)) pos →
      ((h.hovered = (i : ℤ) → now - h.start > 1 →
          checkHoverGui h pos now =
            { h with mode := modeOf (i : ℤ), selecting := false, hovered := -1 }) ∧
       (h.hovered = (i : ℤ) → ¬(now - h.start > 1) → checkHoverGui h pos now = h) ∧
       (h.hovered ≠ (i : ℤ) →
          checkHoverGui h pos now = { h with hovered := (i : ℤ), start := now }))) ∧
    ((∀ j : ℕ, j < 4 → ¬insideIcon 80 (guiIconPositions.getD j (0, 0)) pos) →
      checkHoverGui h pos now = { h with hovered := -1 }) := by
  refine ⟨fun hin => ?_, fun hout => ?_, fun hin => ?_, fun hout => ?_⟩
  · interval_cases i <;>
      (simp only [mainIconPositions, List.getD_cons_zero, List.getD_cons_succ, insideIcon] at hin
       refine ⟨fun hh ht => ?_, fun hh ht => ?_, fun hh => ?_⟩ <;>
         (simp only [checkHover, checkHoverLoop, mainIconPositions, insideIcon]
          split_ifs <;> first | rfl | tauto | omega))
  · have h0 := hout 0 (by norm_num)
    have h1 := hout 1 (by norm_num)
    have h2 := hout 2 (by norm_num)
    have h3 := hout 3 (by norm_num)
    simp only [mainIconPositions, List.getD_cons_zero, List.getD_cons_succ, insideIcon] at h0 h1 h2 h3
    simp only [checkHover, checkHoverLoop, mainIconPositions, insideIcon]
    split_ifs <;> first | rfl | tauto | omega
  · interval_cases i <;>
      (simp only [guiIconPositions, List.getD_cons_zero, List.getD_cons_succ, insideIcon] at hin
       refine ⟨fun hh ht => ?_, fun hh ht => ?_, fun hh => ?_⟩ <;>
         (simp only [checkHoverGui, checkHoverGuiLoop, guiIconPositions, insideIcon]
          split_ifs <;> first | rfl | tauto | omega))
  · have h0 := hout 0 (by norm_num)
    have h1 := hout 1 (by norm_num)
    have h2 := hout 2 (by norm_num)
    have h3 := hout 3 (by norm_num)
    simp only [guiIconPositions, List.getD_cons_zero, List.getD_cons_succ, insideIcon] at h0 h1 h2 h3
    simp only [checkHoverGui, checkHoverGuiLoop, guiIconPositions, insideIcon]
    split_ifs <;> first | rfl | tauto | omega

/-- Witness for C5: in the GUI driver, dwelling on icon 0 past 1 s commits
to Mouse mode, ends mode selection and resets the hovered icon to none. -/
theorem hover_commit_behavior_witness :
    checkHoverGui ⟨0, 1, Mode.painter, true⟩ (50, 30) 3 = ⟨-1, 1, Mode.mouse, false⟩ := by
  have H := (hover_commit_behavior ⟨0, 1, Mode.painter, true⟩ (50, 30) 3 0 (by norm_num)).2.2.1
  exact (H (by norm_num [guiIconPositions, insideIcon])).1 (by norm_num) (by norm_num)

/-- Counterexample to C5 as stated: in the CLI driver a hover commit (icon 1
dwelt past 1 s) sets the mode and ends selection but leaves the tracked
hovered-icon index at 1 and the hover timer at its old value — hover
tracking is not reset. -/
theorem hover_reset_cex :
    checkHover ⟨1, 1, Mode.mouse, true⟩ (200, 30) 3 = ⟨1, 1, Mode.volume, false⟩ ∧
    (1 : ℤ) ≠ -1 := by
  constructor
  · norm_num [checkHover, checkHoverLoop, mainIconPositions, insideIcon, modeOf]
  · decide

/-- The painter branch never touches the screenshot timer. -/
theorem painterStep_shot (s : St) (f : List Bool) (lm : List Landmark) :
    (painterStep s f lm).screenshotStart = s.screenshotStart := by
  have h1 : ∀ (s' : St) (n : String), (applyTool s' n).screenshotStart = s'.screenshotStart := by
    intro s' n
    simp only [applyTool]
    split_ifs <;> rfl
  have h2 : ∀ (s' : St) (cx cy : ℤ), (toolSelect s' cx cy).screenshotStart = s'.screenshotStart := by
    intro s' cx cy
    simp only [toolSelect, painterIcons, List.foldl]
    split_ifs <;> simp only [h1]
  simp only [painterStep]
  split_ifs <;> simp [h2]

/-- A fist frame advances the screenshot hold timer by exactly
`screenshotStep` and emits a screenshot action exactly when that timer
fires, regardless of the rest of the state (no dispatch branch emits a
screenshot or writes the timer). -/
theorem step_fist (cfg : Config) (s : St) (t : ℚ) :
    (step cfg s (fistIn t)).1.screenshotStart = (screenshotStep s.screenshotStart true t).1 ∧
    countShot (step cfg s (fistIn t)).2 =
      (if (screenshotStep s.screenshotStart true t).2 then 1 else 0) := by
  have hcu : (decide (countUp allDown = 5)) = false := by decide
  have hne : (fistLm.isEmpty) = false := by decide
  have hfl : fingersUp fistLm = allDown := by decide
  simp only [step, fistIn, hne, Bool.false_eq_true, if_false, hfl, eq_self_iff_true,
    decide_True, hcu]
  have hsel : selectStep s.selectStart false t s.selecting = (0, s.selecting) := rfl
  rw [hsel]
  generalize hsc : screenshotStep s.screenshotStart true t = sc
  obtain ⟨a, b⟩ := sc
  cases hselv : s.selecting with
  | true =>
    have h8 : 8 < fistLm.length := by decide
    simp only [hselv, if_true, h8]
    cases b <;> simp [countShot]
  | false =>
    simp only [hselv, Bool.false_eq_true, if_false]
    cases hm : s.mode with
    | mouse =>
      have h12 : 12 < fistLm.length := by decide
      cases harm : s.armed <;>
        (cases b <;> simp [hm, h12, harm, mouseStep, fget, allDown, countShot])
    | volume =>
      have h8 : 8 < fistLm.length := by decide
      cases hv : cfg.volAvailable <;>
        (cases b <;> simp [hm, hv, h8, countShot])
    | painter =>
      cases b <;> simp [hm, countShot, painterStep_shot]
    | scroll =>
      cases b <;> simp [hm, countShot, scrollStep, fget, allDown]

/-- Unfolding one frame of `run`. -/
theorem run_cons (cfg : Config) (s : St) (i : Input) (is : List Input) :
    run cfg s (i :: is) =
      ((run cfg (step cfg s i).1 is).1, (step cfg s i).2 ++ (run cfg (step cfg s i).1 is).2) := rfl

/-- Screenshot counting is additive over action lists. -/
theorem countShot_append (a b : List Act) :
    countShot (a ++ b) = countShot a + countShot b := by
  simp [countShot, List.countP_append]

/-- While a fist is held with the timer at a non-zero start `a` and every
frame time is before the threshold (`t - a < 2`), no screenshot fires and
the timer keeps its start value. -/
theorem fist_run_quiet (cfg : Config) (ts : List ℚ) :
    ∀ (s : St) (a : ℚ), a ≠ 0 → s.screenshotStart = a → (∀ t ∈ ts, t - a < 2) →
      countShot (run cfg s (ts.map fistIn)).2 = 0 ∧
      (run cfg s (ts.map fistIn)).1.screenshotStart = a := by
  induction ts with
  | nil =>
    intro s a _ hs _
    exact ⟨rfl, hs⟩
  | cons t ts ih =>
    intro s a ha hs hts
    obtain ⟨hp1, hp2⟩ := step_fist cfg s t
    have hsc : screenshotStep s.screenshotStart true t = (a, false) := by
      rw [hs]
      simp only [screenshotStep, if_pos rfl, ha, if_false]
      have : ¬(t - a ≥ 2) := by
        have := hts t (List.mem_cons_self t ts)
        linarith
      simp [ha, this]
    rw [hsc] at hp1 hp2
    simp only [List.map_cons, run_cons, countShot_append]
    have hrest := ih (step cfg s (fistIn t)).1 a ha hp1
      (fun u hu => hts u (List.mem_cons_of_mem t hu))
    rw [hp2, hrest.1]
    exact ⟨rfl, hrest.2⟩

/-- Running no frames changes nothing. -/
theorem run_nil (cfg : Config) (s : St) : run cfg s [] = (s, []) := rfl

/-- Running a concatenation of frame lists composes. -/
theorem run_append (cfg : Config) (s : St) (xs ys : List Input) :
    run cfg s (xs ++ ys) =
      ((run cfg (run cfg s xs).1 ys).1, (run cfg s xs).2 ++ (run cfg (run cfg s xs).1 ys).2) := by
  induction xs generalizing s with
  | nil => simp [run]
  | cons x xs ih =>
    simp only [List.cons_append, run_cons, ih, List.append_assoc]

/-- C1 (amended): starting with the screenshot timer unset and a fist held
through every frame — no screenshot fires while every later frame is less
than SCREENSHOT_HOLD = 2 s past the first frame; exactly one fires on the
first frame that reaches 2 s past the first frame, and that firing resets
the timer to unset; because the fist is still held, the very next fist
frame restarts the timer, and a frame 2 s after that restart fires a second
screenshot — all without the fist ever being released.  The one-shot
release requirement in the claim does not hold. -/
theorem screenshot_hold_refire (cfg : Config) (s : St) (t1 T t2 T2 : ℚ) (ts : List ℚ)
    (h0 : s.screenshotStart = 0) (ht1 : 0 < t1)
    (hts : ∀ t ∈ ts, t - t1 < 2) (hT : 2 ≤ T - t1) (ht2 : 0 < t2) (hT2 : 2 ≤ T2 - t2) :
    countShot (run cfg s ((t1 :: ts).map fistIn)).2 = 0 ∧
    countShot (run cfg s (((t1 :: ts) ++ [T]).map fistIn)).2 = 1 ∧
    (run cfg s (((t1 :: ts) ++ [T]).map fistIn)).1.screenshotStart = 0 ∧
    countShot (run cfg s (((t1 :: ts) ++ [T, t2, T2]).map fistIn)).2 = 2 := by
  have hne1 : t1 ≠ 0 := ne_of_gt ht1
  have hne2 : t2 ≠ 0 := ne_of_gt ht2
  obtain ⟨ha1, hc1⟩ := step_fist cfg s t1
  have hs1 : screenshotStep s.screenshotStart true t1 = (t1, false) := by
    rw [h0]; simp [screenshotStep]
  rw [hs1] at ha1 hc1
  simp only [Bool.false_eq_true, if_false] at hc1
  obtain ⟨hq, hqs⟩ := fist_run_quiet cfg ts (step cfg s (fistIn t1)).1 t1 hne1 ha1 hts
  have conj1 : countShot (run cfg s ((t1 :: ts).map fistIn)).2 = 0 := by
    rw [List.map_cons, run_cons, countShot_append, hc1, hq]
  have hstA : (run cfg s ((t1 :: ts).map fistIn)).1.screenshotStart = t1 := by
    rw [List.map_cons, run_cons]
    exact hqs
  obtain ⟨haT, hcT⟩ := step_fist cfg (run cfg s ((t1 :: ts).map fistIn)).1 T
  have hsT : screenshotStep (run cfg s ((t1 :: ts).map fistIn)).1.screenshotStart true T =
      (0, true) := by
    rw [hstA]
    simp [screenshotStep, hne1, ge_iff_le, hT]
  rw [hsT] at haT hcT
  simp only [if_true] at hcT
  have hmapT : (((t1 :: ts) ++ [T]).map fistIn) = ((t1 :: ts).map fistIn) ++ [fistIn T] := by
    simp
  have conj2 : countShot (run cfg s (((t1 :: ts) ++ [T]).map fistIn)).2 = 1 := by
    rw [hmapT, run_append, countShot_append, conj1, run_cons cfg _ (fistIn T) [],
      countShot_append, run_nil, hcT]
    simp [countShot]
  have conj3 : (run cfg s (((t1 :: ts) ++ [T]).map fistIn)).1.screenshotStart = 0 := by
    rw [hmapT, run_append, run_cons cfg _ (fistIn T) [], run_nil]
    exact haT
  obtain ⟨ha2, hc2⟩ := step_fist cfg (run cfg s (((t1 :: ts) ++ [T]).map fistIn)).1 t2
  have hs2 : screenshotStep (run cfg s (((t1 :: ts) ++ [T]).map fistIn)).1.screenshotStart
      true t2 = (t2, false) := by
    rw [conj3]; simp [screenshotStep]
  rw [hs2] at ha2 hc2
  simp only [Bool.false_eq_true, if_false] at hc2
  obtain ⟨ha3, hc3⟩ :=
    step_fist cfg (step cfg (run cfg s (((t1 :: ts) ++ [T]).map fistIn)).1 (fistIn t2)).1 T2
  have hs3 : screenshotStep
      (step cfg (run cfg s (((t1 :: ts) ++ [T]).map fistIn)).1 (fistIn t2)).1.screenshotStart
      true T2 = (0, true) := by
    rw [ha2]
    simp [screenshotStep, hne2, ge_iff_le, hT2]
  rw [hs3] at hc3
  simp only [if_true] at hcT hc3
  have hmap2 : (((t1 :: ts) ++ [T, t2, T2]).map fistIn) =
      (((t1 :: ts) ++ [T]).map fistIn) ++ [fistIn t2, fistIn T2] := by
    simp
  refine ⟨conj1, conj2, conj3, ?_⟩
  rw [hmap2, run_append, countShot_append, conj2, run_cons cfg _ (fistIn t2) [fistIn T2],
    countShot_append, hc2, run_cons cfg _ (fistIn T2) [], countShot_append, run_nil, hc3]
  simp [countShot]

/-- Witness for C1 at the concrete fist trace with frames at t = 1, 2 (no
fire), 3 (first fire, 2 s after 1), then 4 and 6 (second fire, 2 s after
the restart at 4). -/
theorem screenshot_hold_refire_witness :
    countShot (run cfg0 initSt (((1 : ℚ) :: [2]).map fistIn)).2 = 0 ∧
    countShot (run cfg0 initSt ((((1 : ℚ) :: [2]) ++ [3]).map fistIn)).2 = 1 ∧
    (run cfg0 initSt ((((1 : ℚ) :: [2]) ++ [3]).map fistIn)).1.screenshotStart = 0 ∧
    countShot (run cfg0 initSt ((((1 : ℚ) :: [2]) ++ [3, 4, 6]).map fistIn)).2 = 2 :=
  screenshot_hold_refire cfg0 initSt 1 3 4 6 [2] rfl (by norm_num)
    (by intro t ht; simp only [List.mem_singleton] at ht; subst ht; norm_num)
    (by norm_num) (by norm_num) (by norm_num)

/-- Counterexample to C1 as stated: four frames, each a closed fist (the
signature stays all-false throughout, the fist is never released), yet TWO
screenshot actions are emitted — at t = 3 and again at t = 6 — because
firing resets the timer to unset and the next fist frame re-arms it. -/
theorem screenshot_one_shot_cex :
    fingersUp fistLm = allDown ∧
    (run cfg0 initSt [fistIn 1, fistIn 3, fistIn 4, fistIn 6]).2 =
      [Act.screenshot, Act.screenshot] := by
  constructor
  · decide
  · norm_num [run, step, screenshotStep, selectStep, mouseStep, scrollStep, painterStep,
      fingersUp, fistIn, fistLm, mkLm, nth, countUp, allDown, fget, initSt, cfg0]
